import Mathlib

/-!
Shallow embedding of the telegram_gather assistant core
(src/assistant/collector.py, src/assistant/summarizer.py, src/assistant/bot.py)
together with proofs about its collection / summarization pipeline.

External collaborators (the Telethon client, the completion API, the HTTP
transport, the filesystem) are modelled as explicit inputs: a fetch is
described by the sequence of messages the platform iterator yields plus
flags saying whether the iterator or the state-file write raises, and the
completion call is an `Except` value handed to the summarizer.
-/

namespace TelegramGather

/-! ### Python-semantics helpers -/

/-- Truthiness of an optional string, as Python evaluates
`x or y` chains: `None` and the empty string are falsy. -/
def optStrTruthy : Option String → Bool
  | none => false
  | some s => !(s == "")

/-- Python `a or b` for an optional string `a` with default `b`:
returns `a` when it is truthy, else `b`. -/
def pyOrStr (a : Option String) (b : String) : String :=
  match a with
  | none => b
  | some s => if s == "" then b else s

/-- Python slicing `s[:n]`: the first `n` characters (code points). -/
def pySlice (s : String) (n : Nat) : String :=
  String.mk (s.data.take n)

/-- Zero-padded two-digit rendering, as `%02d` / strftime zero padding. -/
def pad2 (n : Nat) : String :=
  if n < 10 then "0" ++ toString n else toString n

/-! ### Data model: messages as the collector sees them

A Telethon `Message` is modelled by the attributes the core reads:
`id`, `date`, `sender` (with `first_name` / `username`), `text`,
`message` (raw text), the media payloads `voice` / `video_note` / `audio`
(each carrying its `duration` attribute, already defaulted to `0` as the
source does with `getattr(..., 'duration', 0) or 0`), a flag for any other
media, and `chat_id`. -/

structure Sender where
  first_name : Option String
  username : Option String
deriving Repr, DecidableEq

/-- A timestamp with the fields the formatting code reads
(`%d.%m %H:%M` and `%d.%m.%Y`); ordered chronologically like Python
`datetime` values. -/
structure DateTime where
  year : Nat
  month : Nat
  day : Nat
  hour : Nat
  minute : Nat
deriving Repr, DecidableEq

/-- Chronological sort key for `DateTime` (lexicographic on the fields,
matching Python datetime comparison for in-range field values). -/
def dtKey (d : DateTime) : Nat :=
  (((d.year * 13 + d.month) * 32 + d.day) * 24 + d.hour) * 60 + d.minute

structure Msg where
  id : Nat
  date : Option DateTime
  sender : Option Sender
  text : Option String
  message : Option String
  voice : Option Nat
  video_note : Option Nat
  audio : Option Nat
  media : Bool
  chat_id : Option Int
deriving Repr, DecidableEq

/-- collector.py line 120:
`has_content = bool(msg.text or msg.message or msg.voice or msg.video_note or msg.audio)`. -/
def Msg.hasContent (m : Msg) : Bool :=
  optStrTruthy m.text || optStrTruthy m.message ||
    m.voice.isSome || m.video_note.isSome || m.audio.isSome

/-- Configuration of one monitored chat (assistant config model). -/
structure ChatConfig where
  display_name : String
  goal : String
  priority : String
  identifier : Option String
  chat_id : Option Int
  max_messages : Nat
deriving Repr, DecidableEq

/-! ### Collector state store

`self._state["last_ids"]` is a JSON object mapping chat key to the last
processed message id; modelled as an association list with dict
update-in-place semantics. -/

abbrev LastIds := List (String × Nat)

/-- Lookup in the `last_ids` mapping (`dict.get`). -/
def lookupId : LastIds → String → Option Nat
  | [], _ => none
  | (k, w) :: rest, key => if k = key then some w else lookupId rest key

/-- collector.py line 94: `self._state["last_ids"].get(chat_key, 0)`. -/
def lastIdOf (st : LastIds) (key : String) : Nat :=
  (lookupId st key).getD 0

/-- Dict item assignment `self._state["last_ids"][chat_key] = v`:
replace the binding if the key is present, else append it. -/
def setLastId : LastIds → String → Nat → LastIds
  | [], key, v => [(key, v)]
  | (k, w) :: rest, key, v =>
    if k = key then (k, v) :: rest else (k, w) :: setLastId rest key v

/-- collector.py line 134: `max(m.id for m in messages)` (used only on
non-empty lists, where folding `Nat.max` from `0` agrees with Python `max`). -/
def maxId (msgs : List Msg) : Nat :=
  msgs.foldl (fun a m => Nat.max a m.id) 0

/-- One `get_unread` interaction with the external world: the messages the
platform iterator yields before finishing (or before raising), and whether
chat resolution, the iteration, or the state-file write raises. -/
structure FetchScript where
  resolveRaises : Bool
  yielded : List Msg
  iterRaises : Bool
  saveRaises : Bool
deriving Repr, DecidableEq

/-- Result of `get_unread`: the in-memory `last_ids` mapping afterwards,
the mapping written to the state file (`none` when no write happened),
and the returned message list. -/
structure UnreadOutcome where
  memIds : LastIds
  savedFile : Option LastIds
  messages : List Msg
deriving Repr, DecidableEq

/-- collector.py lines 81-141, `MessageCollector.get_unread`:
resolution failure returns `[]` untouched; the loop filters to
content-bearing messages; an exception inside the `try` block is caught
after the partially collected `messages` list was built, and the final
`return messages` still returns it; only a non-empty result advances
`last_ids[chat_key]` (to the max id) and rewrites the state file. -/
def getUnread (st : LastIds) (key : String) (script : FetchScript) : UnreadOutcome :=
  if script.resolveRaises then ⟨st, none, []⟩
  else
    let msgs := script.yielded.filter Msg.hasContent
    if script.iterRaises then ⟨st, none, msgs⟩
    else if msgs.isEmpty then ⟨st, none, msgs⟩
    else
      let st2 := setLastId st key (maxId msgs)
      if script.saveRaises then ⟨st2, none, msgs⟩
      else ⟨st2, some st2, msgs⟩

/-- Iterated `get_unread` calls for one chat key (each call reads the
in-memory state left by the previous one). -/
def runUnread (st : LastIds) (key : String) : List FetchScript → LastIds
  | [] => st
  | s :: rest => runUnread (getUnread st key s).memIds key rest

/-- A script of a successful call: nothing raises. -/
def FetchScript.ok (s : FetchScript) : Prop :=
  s.resolveRaises = false ∧ s.iterRaises = false ∧ s.saveRaises = false

instance (s : FetchScript) : Decidable s.ok := by
  unfold FetchScript.ok; infer_instance

/-- The platform honours `min_id`: every yielded message id is strictly
above the checkpoint passed to the iterator, for each call in sequence. -/
def Consistent (st : LastIds) (key : String) : List FetchScript → Prop
  | [] => True
  | s :: rest =>
      (∀ m ∈ s.yielded, lastIdOf st key < m.id) ∧
        Consistent (getUnread st key s).memIds key rest

/-! ### State-store lemmas -/

theorem lastIdOf_setLastId_self (st : LastIds) (key : String) (v : Nat) :
    lastIdOf (setLastId st key v) key = v := by
  induction st with
  | nil => simp [setLastId, lastIdOf, lookupId]
  | cons p rest ih =>
    obtain ⟨k, w⟩ := p
    by_cases h : k = key
    · simp [setLastId, h, lastIdOf, lookupId]
    · simp [setLastId, h, lastIdOf, lookupId] at ih ⊢
      exact ih

theorem le_foldl_max (l : List Msg) (a : Nat) :
    a ≤ l.foldl (fun a m => Nat.max a m.id) a := by
  induction l generalizing a with
  | nil => exact Nat.le_refl a
  | cons m rest ih =>
    exact Nat.le_trans (Nat.le_max_left a m.id) (ih (Nat.max a m.id))

theorem mem_le_foldl_max (l : List Msg) (a : Nat) (m : Msg) (hm : m ∈ l) :
    m.id ≤ l.foldl (fun a m => Nat.max a m.id) a := by
  induction l generalizing a with
  | nil => cases hm
  | cons x rest ih =>
    rcases List.mem_cons.mp hm with h | h
    · subst h
      exact Nat.le_trans (Nat.le_max_right a m.id) (le_foldl_max rest (Nat.max a m.id))
    · exact ih (Nat.max a x.id) h

theorem mem_le_maxId (msgs : List Msg) (m : Msg) (hm : m ∈ msgs) :
    m.id ≤ maxId msgs :=
  mem_le_foldl_max msgs 0 m hm

/-! ### `get_unread` step lemmas -/

theorem getUnread_ok_step (st : LastIds) (key : String) (script : FetchScript)
    (h : script.ok) :
    (getUnread st key script).messages = script.yielded.filter Msg.hasContent ∧
    (script.yielded.filter Msg.hasContent = [] → getUnread st key script = ⟨st, none, []⟩) ∧
    (script.yielded.filter Msg.hasContent ≠ [] →
      (getUnread st key script).memIds
        = setLastId st key (maxId (script.yielded.filter Msg.hasContent))) := by
  obtain ⟨h1, h2, h3⟩ := h
  unfold getUnread
  simp only [h1, h2, h3, Bool.false_eq_true, if_false]
  by_cases hm : script.yielded.filter Msg.hasContent = []
  · simp [hm]
  · simp [hm, List.isEmpty_iff]

theorem lastIdOf_getUnread_le (st : LastIds) (key : String) (script : FetchScript)
    (hok : script.ok)
    (hmin : ∀ m ∈ script.yielded, lastIdOf st key < m.id) :
    lastIdOf st key ≤ lastIdOf (getUnread st key script).memIds key := by
  obtain ⟨hmsgs, hempty, hfull⟩ := getUnread_ok_step st key script hok
  by_cases hm : script.yielded.filter Msg.hasContent = []
  · rw [hempty hm]
  · rw [hfull hm, lastIdOf_setLastId_self]
    obtain ⟨m, hmem⟩ := List.exists_mem_of_ne_nil _ hm
    have hy : m ∈ script.yielded := List.mem_of_mem_filter hmem
    exact Nat.le_of_lt
      (Nat.lt_of_lt_of_le (hmin m hy) (mem_le_maxId _ m hmem))

theorem runUnread_le (key : String) :
    ∀ (scripts : List FetchScript) (st : LastIds),
      (∀ s ∈ scripts, s.ok) → Consistent st key scripts →
      lastIdOf st key ≤ lastIdOf (runUnread st key scripts) key := by
  intro scripts
  induction scripts with
  | nil => intro st _ _; exact Nat.le_refl _
  | cons s rest ih =>
    intro st hoks hcons
    have h1 := lastIdOf_getUnread_le st key s (hoks s (List.mem_cons_self s rest)) hcons.1
    have h2 := ih (getUnread st key s).memIds
      (fun x hx => hoks x (List.mem_cons_of_mem s hx)) hcons.2
    exact Nat.le_trans h1 h2

/-! ### Example inputs for witnesses and counterexamples -/

/-- A plain text-bearing message with id 5. -/
def exMsg : Msg :=
  { id := 5, date := none, sender := none, text := some "hi", message := none,
    voice := none, video_note := none, audio := none, media := false, chat_id := none }

/-- A successful script yielding one text message with id 6. -/
def wScript : FetchScript :=
  { resolveRaises := false,
    yielded := [{ exMsg with id := 6 }],
    iterRaises := false, saveRaises := false }

/-! ### Claims C1 and C2 -/

/-- C1 counterexample: with checkpoint state empty, a fetch whose iterator
yields one content-bearing message (id 5) and then raises leaves the
checkpoint untouched but returns a NON-empty list, so the claim
"checkpoint untouched and an empty sequence is returned" is false at this
input: `get_unread` returns the partially collected messages, not `[]`. -/
theorem getUnread_exception_cex :
    ¬ ((getUnread [] "k" ⟨false, [exMsg], true, false⟩).memIds = [] ∧
       (getUnread [] "k" ⟨false, [exMsg], true, false⟩).messages = []) := by
  decide

/-- C1 (amended): if an exception is raised while iterating or persisting
during an unread fetch, the state file is not written and the call returns
the content-bearing messages collected before the failure (possibly
non-empty). The in-memory checkpoint is untouched when the failure is
during iteration or when nothing was collected; when persisting a
non-empty result fails, the in-memory checkpoint has already advanced to
the maximum collected id. -/
theorem getUnread_exception_checkpoint (st : LastIds) (key : String)
    (script : FetchScript)
    (hres : script.resolveRaises = false)
    (hfail : script.iterRaises = true ∨ script.saveRaises = true) :
    (getUnread st key script).savedFile = none
    ∧ (getUnread st key script).messages = script.yielded.filter Msg.hasContent
    ∧ (script.iterRaises = true → (getUnread st key script).memIds = st)
    ∧ (script.iterRaises = false → script.yielded.filter Msg.hasContent = [] →
        (getUnread st key script).memIds = st)
    ∧ (script.iterRaises = false → script.yielded.filter Msg.hasContent ≠ [] →
        (getUnread st key script).memIds
          = setLastId st key (maxId (script.yielded.filter Msg.hasContent))) := by
  unfold getUnread
  simp only [hres, Bool.false_eq_true, if_false]
  by_cases hit : script.iterRaises = true
  · simp [hit]
  · simp only [hit, if_false]
    have hsv : script.saveRaises = true := by
      rcases hfail with h | h
      · exact absurd h hit
      · exact h
    by_cases hm : script.yielded.filter Msg.hasContent = []
    · simp [hm, hsv]
    · simp [hm, hsv, List.isEmpty_iff]

/-- C1 witness: the amended statement at the concrete counterexample input
(state file untouched, partial non-empty result returned, in-memory
checkpoint untouched on an iteration failure). -/
theorem getUnread_exception_checkpoint_witness :
    (getUnread [("k", 1)] "k" ⟨false, [exMsg], true, false⟩).savedFile = none
    ∧ (getUnread [("k", 1)] "k" ⟨false, [exMsg], true, false⟩).messages
        = [exMsg].filter Msg.hasContent
    ∧ ((⟨false, [exMsg], true, false⟩ : FetchScript).iterRaises = true →
        (getUnread [("k", 1)] "k" ⟨false, [exMsg], true, false⟩).memIds = [("k", 1)])
    ∧ ((⟨false, [exMsg], true, false⟩ : FetchScript).iterRaises = false →
        [exMsg].filter Msg.hasContent = [] →
        (getUnread [("k", 1)] "k" ⟨false, [exMsg], true, false⟩).memIds = [("k", 1)])
    ∧ ((⟨false, [exMsg], true, false⟩ : FetchScript).iterRaises = false →
        [exMsg].filter Msg.hasContent ≠ [] →
        (getUnread [("k", 1)] "k" ⟨false, [exMsg], true, false⟩).memIds
          = setLastId [("k", 1)] "k" (maxId ([exMsg].filter Msg.hasContent))) :=
  getUnread_exception_checkpoint [("k", 1)] "k" ⟨false, [exMsg], true, false⟩
    rfl (Or.inl rfl)

/-- C2: across successful `get_unread` calls the stored checkpoint for a
chat key is monotonically non-decreasing. For a single successful call
whose yielded messages all have ids above the current checkpoint (the
`min_id` bound honoured by the platform): an empty result leaves the
in-memory state unchanged, a non-empty result sets the checkpoint to the
maximum id of the returned messages, which strictly exceeds the previous
value; and over any consistent sequence of successful calls the checkpoint
never decreases. -/
theorem getUnread_checkpoint_monotone
    (st : LastIds) (key : String) (script : FetchScript)
    (scripts : List FetchScript)
    (hok : script.ok)
    (hmin : ∀ m ∈ script.yielded, lastIdOf st key < m.id)
    (hoks : ∀ s ∈ scripts, s.ok)
    (hcons : Consistent st key scripts) :
    (lastIdOf st key ≤ lastIdOf (getUnread st key script).memIds key)
    ∧ ((getUnread st key script).messages = [] →
        (getUnread st key script).memIds = st)
    ∧ ((getUnread st key script).messages ≠ [] →
        lastIdOf (getUnread st key script).memIds key
          = maxId (getUnread st key script).messages
        ∧ lastIdOf st key < lastIdOf (getUnread st key script).memIds key)
    ∧ lastIdOf st key ≤ lastIdOf (runUnread st key scripts) key := by
  obtain ⟨hmsgs, hempty, hfull⟩ := getUnread_ok_step st key script hok
  refine ⟨lastIdOf_getUnread_le st key script hok hmin, ?_, ?_, ?_⟩
  · intro h
    rw [hmsgs] at h
    rw [hempty h]
  · intro h
    rw [hmsgs] at h
    constructor
    · rw [hfull h, lastIdOf_setLastId_self, hmsgs]
    · rw [hfull h, lastIdOf_setLastId_self]
      obtain ⟨m, hmem⟩ := List.exists_mem_of_ne_nil _ h
      exact Nat.lt_of_lt_of_le (hmin m (List.mem_of_mem_filter hmem))
        (mem_le_maxId _ m hmem)
  · exact runUnread_le key scripts st hoks hcons

/-- C2 witness: the monotonicity statement at a concrete input (checkpoint
5, one successful fetch yielding a text message with id 6). -/
theorem getUnread_checkpoint_monotone_witness :
    (lastIdOf [("k", 5)] "k" ≤ lastIdOf (getUnread [("k", 5)] "k" wScript).memIds "k")
    ∧ ((getUnread [("k", 5)] "k" wScript).messages = [] →
        (getUnread [("k", 5)] "k" wScript).memIds = [("k", 5)])
    ∧ ((getUnread [("k", 5)] "k" wScript).messages ≠ [] →
        lastIdOf (getUnread [("k", 5)] "k" wScript).memIds "k"
          = maxId (getUnread [("k", 5)] "k" wScript).messages
        ∧ lastIdOf [("k", 5)] "k" < lastIdOf (getUnread [("k", 5)] "k" wScript).memIds "k")
    ∧ lastIdOf [("k", 5)] "k" ≤ lastIdOf (runUnread [("k", 5)] "k" [wScript]) "k" :=
  getUnread_checkpoint_monotone [("k", 5)] "k" wScript [wScript]
    (by decide) (by decide) (by decide) ⟨by decide, trivial⟩

/-! ### Summarizer: message formatting (summarizer.py, `_format_messages`) -/

/-- A voice / video-note / audio reference surfaced in the digest. -/
structure MediaItem where
  emoji : String
  label : String
  duration : String
  link : String
  sender : String
deriving Repr, DecidableEq

/-- summarizer.py lines 187-191: sender display name via
`getattr(msg.sender, 'first_name', None) or getattr(..., 'username', None) or "Unknown"`. -/
def senderName (m : Msg) : String :=
  match m.sender with
  | none => "Unknown"
  | some s => pyOrStr s.first_name (pyOrStr s.username "Unknown")

/-- `f"{mins}:{secs:02d}" if duration else ""` with `mins, secs = divmod(duration, 60)`. -/
def durStr (duration : Nat) : String :=
  if duration ≠ 0 then toString (duration / 60) ++ ":" ++ pad2 (duration % 60) else ""

/-- summarizer.py lines 244-254, `_get_message_link`: channel-style link for
truthy negative chat ids (stripping a leading `100` from the absolute
value), else a plain message-id reference. -/
def getMessageLink (m : Msg) : String :=
  match m.chat_id with
  | none => "(сообщение " ++ toString m.id ++ ")"
  | some cid =>
    if cid ≠ 0 ∧ cid < 0 then
      let s := toString cid.natAbs
      let s2 := if s.startsWith "100" then s.drop 3 else s
      "https://t.me/c/" ++ s2 ++ "/" ++ toString m.id
    else "(сообщение " ++ toString m.id ++ ")"

/-- strftime `"%d.%m %H:%M"`. -/
def fmtShort (d : DateTime) : String :=
  pad2 d.day ++ "." ++ pad2 d.month ++ " " ++ pad2 d.hour ++ ":" ++ pad2 d.minute

/-- strftime `"%d.%m.%Y"` (years in the data are four-digit). -/
def fmtLong (d : DateTime) : String :=
  pad2 d.day ++ "." ++ pad2 d.month ++ "." ++ toString d.year

/-- Python `min(dates)` (first minimum) on a possibly empty list. -/
def minDate : List DateTime → Option DateTime
  | [] => none
  | d :: rest => some (rest.foldl (fun a x => if dtKey x < dtKey a then x else a) d)

/-- Python `max(dates)` (first maximum) on a possibly empty list. -/
def maxDate : List DateTime → Option DateTime
  | [] => none
  | d :: rest => some (rest.foldl (fun a x => if dtKey a < dtKey x then x else a) d)

/-- Accumulator of the `_format_messages` loop: the `lines`, `dates` and
`media_items` lists being appended to. -/
structure FormatAcc where
  lines : List String
  dates : List DateTime
  media_items : List MediaItem
deriving Repr, DecidableEq

/-- One iteration of the `_format_messages` loop body (summarizer.py
lines 186-233) for message `m`. -/
def formatStep (acc : FormatAcc) (m : Msg) : FormatAcc :=
  let sender_name := senderName m
  let media_sender := if sender_name ≠ "Unknown" then sender_name else ""
  let (text, mediaAdd) :=
    match m.voice with
    | some duration =>
      ("[🎤 голосовое]",
        [MediaItem.mk "🎤" "голосовое" (durStr duration) (getMessageLink m) media_sender])
    | none =>
      match m.video_note with
      | some duration =>
        ("[🔵 кружочек]",
          [MediaItem.mk "🔵" "кружочек" (durStr duration) (getMessageLink m) media_sender])
      | none =>
        match m.audio with
        | some duration =>
          ("[🎵 аудио]",
            [MediaItem.mk "🎵" "аудио" (durStr duration) (getMessageLink m) media_sender])
        | none =>
          let t := pyOrStr m.text (pyOrStr m.message "[media]")
          (if 500 < t.length then pySlice t 500 ++ "..." else t, [])
  let timestamp := match m.date with | some d => fmtShort d | none => ""
  { lines := acc.lines ++ ["[" ++ timestamp ++ "] " ++ sender_name ++ ": " ++ text],
    dates := acc.dates ++ (match m.date with | some d => [d] | none => []),
    media_items := acc.media_items ++ mediaAdd }

/-- Python `lines[-30:]`. -/
def takeLast (n : Nat) (l : List String) : List String :=
  l.drop (l.length - n)

/-- summarizer.py lines 176-242, `_format_messages`: iterates over
`reversed(messages)`, keeps the last 30 produced lines, joins them with
newlines, and returns `(text, oldest_date, newest_date, media_items)`. -/
def formatMessages (messages : List Msg) :
    String × String × String × List MediaItem :=
  let acc := messages.reverse.foldl formatStep ⟨[], [], []⟩
  let limited := takeLast 30 acc.lines
  let oldest := match minDate acc.dates with | some d => fmtLong d | none => "?"
  let newest := match maxDate acc.dates with | some d => fmtLong d | none => "?"
  (String.intercalate "\n" limited, oldest, newest, acc.media_items)

/-! ### Claim C3 -/

/-- Oldest message of a two-element oldest-first batch (id 1, 01.01). -/
def exM1 : Msg :=
  { exMsg with id := 1, date := some ⟨2025, 1, 1, 10, 0⟩, text := some "a" }

/-- Newest message of a two-element oldest-first batch (id 2, 02.01). -/
def exM2 : Msg :=
  { exMsg with id := 2, date := some ⟨2025, 1, 2, 10, 0⟩, text := some "b" }

/-- A text message with id `i` and body `m{i}`. -/
def mkTextMsg (i : Nat) : Msg :=
  { exMsg with id := i, text := some ("m" ++ toString i) }

/-- A 31-message batch, ids 1..31, in the oldest-first order `get_unread`
produces (it iterates with `reverse=True`). -/
def batch31 : List Msg := (List.range 31).map (fun i => mkTextMsg (i + 1))

/-- C3, evidence of the code bug: on a batch in `get_unread`'s oldest-first
order, `_format_messages` renders the prompt NEWEST-first (the reversal at
summarizer.py line 186 assumes newest-first input, but `get_unread`
already yields oldest-first), and on a 31-message batch `lines[-30:]`
keeps the 30 OLDEST lines, dropping the newest message (id 31) — the
opposite of the claimed "30 most recent retained". -/
theorem formatMessages_order_truncation_eval :
    (formatMessages [exM1, exM2]).1
      = "[02.01 10:00] Unknown: b\n[01.01 10:00] Unknown: a"
    ∧ (formatMessages batch31).1
      = String.intercalate "\n"
          ((List.range 30).map (fun i => "[] Unknown: m" ++ toString (30 - i))) := by
  constructor
  · rfl
  · rfl

/-! ### Collector: `_parse_period` (collector.py lines 198-222)

`int()` and `datetime.timedelta` are Python builtins; they are embedded
from their documented behaviour: `int` accepts optional surrounding
whitespace, an optional sign and decimal digits with single underscores
between digits, raising `ValueError` otherwise; `timedelta` raises
`OverflowError` when the normalized day component exceeds 999999999 in
magnitude. An `Except.error` result of `parsePeriod` models the Python
call raising. -/

/-- Valid continuation of a decimal literal after its first digit:
digits, with each underscore followed by a digit. -/
def digitTail : List Char → Bool
  | [] => true
  | ['_'] => false
  | '_' :: d :: rest => d.isDigit && digitTail rest
  | c :: rest => c.isDigit && digitTail rest

/-- A non-empty decimal digit run with legal underscore placement. -/
def digitsOk : List Char → Bool
  | [] => false
  | c :: rest => c.isDigit && digitTail rest

/-- Value of a digit run (underscores removed before the call). -/
def digitsToNat (cs : List Char) : Nat :=
  cs.foldl (fun a c => a * 10 + (c.toNat - '0'.toNat)) 0

/-- Python `int(s)` on a decimal string literal. -/
def pythonInt (s : String) : Except String Int :=
  let trimmed :=
    ((s.data.dropWhile Char.isWhitespace).reverse.dropWhile Char.isWhitespace).reverse
  let value := fun (l : List Char) => digitsToNat (l.filter (fun x => x ≠ '_'))
  match trimmed with
  | [] => Except.error "ValueError"
  | c :: rest =>
    if c = '-' then
      if digitsOk rest then Except.ok (-(value rest : Int))
      else Except.error "ValueError"
    else if c = '+' then
      if digitsOk rest then Except.ok (value rest : Int)
      else Except.error "ValueError"
    else
      if digitsOk trimmed then Except.ok (value trimmed : Int)
      else Except.error "ValueError"

/-- `datetime.timedelta` of the given total seconds: `OverflowError` when
the normalized (floor-division) day component is out of
`[-999999999, 999999999]`, else the duration. -/
def mkTimedelta (seconds : Int) : Except String Int :=
  let days := Int.fdiv seconds 86400
  if days < -999999999 ∨ 999999999 < days then Except.error "OverflowError"
  else Except.ok seconds

/-- collector.py lines 198-222, `MessageCollector._parse_period`, returning
the duration in seconds: empty input defaults to 1 day; `int(period[:-1])`
raising `ValueError` is caught and defaults to 1 day; the unit is the
lowercased last character, `h`/`d`/`w` giving hours/days/weeks and any
other unit days. The `timedelta` construction itself sits inside the
`try`, but its `OverflowError` is NOT among the caught exception types
`(ValueError, IndexError)`, so it escapes as an `Except.error`. -/
def parsePeriod (period : String) : Except String Int :=
  if period = "" then Except.ok 86400
  else
    match pythonInt (String.mk period.data.dropLast) with
    | Except.error _ => Except.ok 86400
    | Except.ok num =>
      match period.data.getLast? with
      | none => Except.ok 86400
      | some last =>
        let unit := last.toLower
        if unit = 'h' then mkTimedelta (num * 3600)
        else if unit = 'd' then mkTimedelta (num * 86400)
        else if unit = 'w' then mkTimedelta (num * 604800)
        else mkTimedelta (num * 86400)

/-- C4, evidence of the code bug: the recognised units and the documented
fallbacks behave as claimed ("12h" is 12 hours, "2d" two days, "1w" one
week, unknown unit "3x" three days, empty and unparseable inputs one day),
but the parser is NOT total: on "999999999999d" the `timedelta`
construction raises `OverflowError`, which the `except (ValueError,
IndexError)` clause does not catch, so `_parse_period` raises instead of
returning a duration. -/
theorem parsePeriod_overflow_eval :
    parsePeriod "12h" = Except.ok (12 * 3600)
    ∧ parsePeriod "2d" = Except.ok (2 * 86400)
    ∧ parsePeriod "1w" = Except.ok 604800
    ∧ parsePeriod "3x" = Except.ok (3 * 86400)
    ∧ parsePeriod "" = Except.ok 86400
    ∧ parsePeriod "abc" = Except.ok 86400
    ∧ parsePeriod "999999999999d" = Except.error "OverflowError" :=
  ⟨rfl, rfl, rfl, rfl, rfl, rfl, rfl⟩

/-! ### Summarizer: `_extract_actions` (summarizer.py lines 256-266) -/

/-- Python `line.lstrip("-•* ")`: drop leading characters drawn from the
bullet set. -/
def lstripBullets (s : String) : String :=
  String.mk (s.data.dropWhile (fun c => c == '-' || c == '•' || c == '*' || c == ' '))

/-- Loop body of `_extract_actions`: a trimmed line starting with a bullet
contributes its cleaned content when that content is truthy and longer
than 3 characters. -/
def actionStep (acc : List String) (line : String) : List String :=
  let l := line.trim
  if l.startsWith "-" || l.startsWith "•" || l.startsWith "*" then
    let action := (lstripBullets l).trim
    if action ≠ "" ∧ 3 < action.length then acc ++ [action] else acc
  else acc

/-- summarizer.py `_extract_actions`: fold the loop body over the lines of
the response, then `actions[:5]`. -/
def extractActions (text : String) : List String :=
  ((text.splitOn "\n").foldl actionStep []).take 5

/-- Specification reading of one line's contribution: the cleaned bullet
content when the trimmed line starts with `-`, `•` or `*` and the content
after stripping the bullet prefix is non-empty with trimmed length
strictly above 3; nothing otherwise. -/
def bulletAction (line : String) : Option String :=
  let l := line.trim
  if l.startsWith "-" || l.startsWith "•" || l.startsWith "*" then
    let action := (lstripBullets l).trim
    if action ≠ "" ∧ 3 < action.length then some action else none
  else none

theorem actionStep_eq (acc : List String) (line : String) :
    actionStep acc line = acc ++ (bulletAction line).toList := by
  simp only [actionStep, bulletAction]
  split_ifs <;> simp

theorem foldl_actionStep (lines : List String) :
    ∀ acc : List String,
      lines.foldl actionStep acc = acc ++ lines.filterMap bulletAction := by
  induction lines with
  | nil => intro acc; simp
  | cons l rest ih =>
    intro acc
    rw [List.foldl_cons, ih, actionStep_eq, List.filterMap_cons]
    cases bulletAction l <;> simp

/-- C8: action extraction returns exactly the cleaned contents of the
lines that, after trimming, start with `-`, `•` or `*` and whose content
after stripping the bullet prefix has trimmed length strictly greater
than 3, in their original order, capped at the first 5 such lines. -/
theorem extractActions_bullets (text : String) :
    extractActions text = ((text.splitOn "\n").filterMap bulletAction).take 5
    ∧ (extractActions text).length ≤ 5 := by
  constructor
  · unfold extractActions
    rw [foldl_actionStep (text.splitOn "\n") []]
    simp
  · unfold extractActions
    exact List.length_take_le 5 _

/-! ### Summarizer: aggregation (summarizer.py lines 268-309) -/

/-- Summary of one chat's batch. -/
structure ChatSummary where
  chat_name : String
  priority : String
  summary : String
  actions : List String
  message_count : Nat
  media_items : List MediaItem
deriving Repr, DecidableEq

/-- The three priority buckets of `_build_aggregate`
(`by_priority = {"high": [], "medium": [], "low": []}`). -/
structure PriorityBuckets where
  high : List ChatSummary
  medium : List ChatSummary
  low : List ChatSummary
deriving Repr, DecidableEq

/-- Loop body of the grouping loop: an unrecognized priority is coerced to
`"medium"`, then the summary is appended to its bucket. -/
def bucketStep (b : PriorityBuckets) (s : ChatSummary) : PriorityBuckets :=
  let priority :=
    if s.priority = "high" ∨ s.priority = "medium" ∨ s.priority = "low"
    then s.priority else "medium"
  if priority = "high" then { b with high := b.high ++ [s] }
  else if priority = "medium" then { b with medium := b.medium ++ [s] }
  else { b with low := b.low ++ [s] }

/-- Membership tests of the three buckets, as predicates. -/
def isHighP (s : ChatSummary) : Bool := s.priority == "high"

def isLowP (s : ChatSummary) : Bool := s.priority == "low"

def isMediumP (s : ChatSummary) : Bool := !(isHighP s) && !(isLowP s)

/-- Lines rendered for the media list of one chat block
(`if s.media_items:` section). -/
def mediaLines (items : List MediaItem) : List String :=
  if items.isEmpty then []
  else
    "\n<b>🎧 Аудио/видео</b>" ::
      items.map (fun item =>
        let dur_part := if item.duration ≠ "" then " (" ++ item.duration ++ ")" else ""
        let sender_part := if item.sender ≠ "" then " — " ++ item.sender else ""
        item.emoji ++ " <a href=\"" ++ item.link ++ "\">" ++ item.label ++ "</a>"
          ++ dur_part ++ sender_part)

/-- Lines rendered for one chat inside its priority section. -/
def chatLines (s : ChatSummary) : List String :=
  ("\n<b>" ++ s.chat_name ++ "</b> (" ++ toString s.message_count ++ " сообщ.)")
    :: s.summary :: mediaLines s.media_items

/-- Lines of one priority section: nothing when the bucket is empty, else
the icon/name heading followed by each chat's block. -/
def sectionLines (icon label : String) (chats : List ChatSummary) : List String :=
  if chats.isEmpty then []
  else ("\n" ++ icon ++ " <b>" ++ label ++ "</b>") :: (chats.map chatLines).flatten

/-- summarizer.py `_build_aggregate`: group by priority, render the header
with the current time, then the high / medium / low sections in that fixed
order, falling back to the fixed "nothing new" line when no bucket has
content. -/
def buildAggregate (now : String) (summaries : List ChatSummary) : String :=
  let b := summaries.foldl bucketStep ⟨[], [], []⟩
  let header := "<b>Сводка за " ++ now ++ "</b>\n"
  let body :=
    sectionLines "🔴" "Высокий приоритет" b.high
      ++ sectionLines "🟡" "Средний приоритет" b.medium
      ++ sectionLines "🟢" "Низкий приоритет" b.low
  let has_content := !b.high.isEmpty || !b.medium.isEmpty || !b.low.isEmpty
  let allLines :=
    if has_content then header :: body
    else header :: body ++ ["\nНет новых сообщений в отслеживаемых чатах."]
  String.intercalate "\n" allLines

theorem bucketStep_filter (ss : List ChatSummary) :
    ∀ b : PriorityBuckets,
      ss.foldl bucketStep b =
        ⟨b.high ++ ss.filter isHighP, b.medium ++ ss.filter isMediumP,
          b.low ++ ss.filter isLowP⟩ := by
  induction ss with
  | nil => intro b; simp
  | cons s rest ih =>
    intro b
    rw [List.foldl_cons, ih]
    by_cases hh : s.priority = "high"
    · simp [bucketStep, isHighP, isMediumP, isLowP, hh]
    · by_cases hl : s.priority = "low"
      · simp [bucketStep, isHighP, isMediumP, isLowP, hh, hl]
      · by_cases hm : s.priority = "medium"
        · simp [bucketStep, isHighP, isMediumP, isLowP, hh, hl, hm]
        · simp [bucketStep, isHighP, isMediumP, isLowP, hh, hl, hm]

theorem filters_nil_iff (ss : List ChatSummary) :
    (ss.filter isHighP = [] ∧ ss.filter isMediumP = [] ∧ ss.filter isLowP = [])
      ↔ ss = [] := by
  constructor
  · intro ⟨h1, h2, h3⟩
    cases ss with
    | nil => rfl
    | cons s rest =>
      exfalso
      by_cases hh : isHighP s
      · have : s ∈ List.filter isHighP (s :: rest) := List.mem_filter.mpr ⟨List.mem_cons_self s rest, hh⟩
        rw [h1] at this; cases this
      · by_cases hl : isLowP s
        · have : s ∈ List.filter isLowP (s :: rest) := List.mem_filter.mpr ⟨List.mem_cons_self s rest, hl⟩
          rw [h3] at this; cases this
        · have hm : isMediumP s := by
            unfold isMediumP
            simp only [Bool.not_eq_true] at hh hl
            rw [hh, hl]; rfl
          have : s ∈ List.filter isMediumP (s :: rest) := List.mem_filter.mpr ⟨List.mem_cons_self s rest, hm⟩
          rw [h2] at this; cases this
  · intro h; subst h; exact ⟨rfl, rfl, rfl⟩

/-- C5: aggregation partitions the summaries into exactly three priority
buckets (any priority other than high/medium/low coerced to medium —
the bucket predicates `isHighP`/`isMediumP`/`isLowP` are exhaustive),
renders the buckets in the fixed order high, medium, low regardless of
where the entries sit in the input, preserves the input's relative order
inside each bucket (each bucket is a `filter` of the input), and when all
three buckets are empty — equivalently, when there are no summaries — the
digest body is exactly the fixed "nothing new" line after the dated
header. -/
theorem buildAggregate_grouping (now : String) (ss : List ChatSummary) :
    (ss.foldl bucketStep ⟨[], [], []⟩ =
      ⟨ss.filter isHighP, ss.filter isMediumP, ss.filter isLowP⟩)
    ∧ buildAggregate now ss =
        String.intercalate "\n"
          (("<b>Сводка за " ++ now ++ "</b>\n")
            :: (sectionLines "🔴" "Высокий приоритет" (ss.filter isHighP)
              ++ sectionLines "🟡" "Средний приоритет" (ss.filter isMediumP)
              ++ sectionLines "🟢" "Низкий приоритет" (ss.filter isLowP)
              ++ if ss = [] then ["\nНет новых сообщений в отслеживаемых чатах."] else []))
    ∧ (ss = [] →
        buildAggregate now ss =
          "<b>Сводка за " ++ now ++ "</b>\n"
            ++ "\n" ++ "\nНет новых сообщений в отслеживаемых чатах.") := by
  have hb := bucketStep_filter ss ⟨[], [], []⟩
  simp only [List.nil_append] at hb
  refine ⟨hb, ?_, ?_⟩
  · unfold buildAggregate
    rw [hb]
    by_cases hss : ss = []
    · subst hss
      simp [sectionLines]
    · have hne := (not_iff_not.mpr (filters_nil_iff ss)).mpr hss
      push_neg at hne
      rcases Classical.em (ss.filter isHighP = []) with h1 | h1 <;>
        rcases Classical.em (ss.filter isMediumP = []) with h2 | h2 <;>
          rcases Classical.em (ss.filter isLowP = []) with h3 | h3 <;>
            simp_all [List.isEmpty_iff]
  · intro h; subst h
    rfl

/-! ### Summarizer: per-chat summary (summarizer.py lines 64-124)

The completion collaborator (`_call_gpt` through `asyncio.to_thread`) is
modelled by its outcome: `Except.ok response` for a successful call
(response already stripped, as `_call_gpt` returns
`....content.strip()`), `Except.error e` for any raised exception. -/

/-- summarizer.py lines 126-164, `_build_chat_prompt` (the f-string with
the chat name, goal, date range, current date and the formatted message
block embedded verbatim). -/
def buildChatPrompt (cfg : ChatConfig) (messagesText oldest newest today : String) :
    String :=
  "Чат: " ++ cfg.display_name
    ++ "\nЦель пользователя: " ++ cfg.goal
    ++ "\nПериод сообщений: " ++ oldest ++ " — " ++ newest
    ++ "\nСегодня: " ++ today
    ++ "\n\nСообщения:\n" ++ messagesText
    ++ "\n\n---\n\nСделай сводку СТРОГО на основе сообщений выше.\n\nФОРМАТ ВЫВОДА — Telegram HTML:\n- Заголовки: <b>Заголовок</b>\n- Ссылки: <a href=\"URL\">текст</a>\n- НЕ используй Markdown (**, [], #)\n\n<b>Что происходит</b>\nКратко опиши контекст (2-3 предложения). Что важного случилось или планируется.\n\n<b>Что делать</b>\nФормат: • Действие → зачем. Срочность\n- Если в сообщениях есть ссылки (Zoom, календарь и т.д.) — ОБЯЗАТЕЛЬНО включи их как <a href=\"URL\">текст</a>\n- Срочность: 🔴 сегодня / 🟡 2-3 дня / 🟢 неделя+\n- Если действий нет — \"—\"\n\nВАЖНО:\n- ФОКУС на последних 2-3 днях и ближайших дедлайнах\n- Старые события (>3 дней назад) упоминай ТОЛЬКО если они влияют на текущие действия\n- Сохраняй ВСЕ ссылки из сообщений\n- НЕ выдумывай то, чего нет в сообщениях"

/-- summarizer.py lines 64-105, `Summarizer.summarize_chat`: an empty
batch returns the fixed "no new messages" summary without consulting the
completion result at all; otherwise the batch is formatted once, and the
completion outcome decides between a real summary (with extracted
actions) and the error summary (failure text, no actions) — in both cases
`message_count` is the true batch size and `media_items` come from the
real batch. -/
def summarizeChat (cfg : ChatConfig) (messages : List Msg)
    (gpt : Except String String) : ChatSummary :=
  if messages = [] then
    { chat_name := cfg.display_name, priority := cfg.priority,
      summary := "Нет новых сообщений", actions := [], message_count := 0,
      media_items := [] }
  else
    let fm := formatMessages messages
    match gpt with
    | Except.ok response =>
      { chat_name := cfg.display_name, priority := cfg.priority,
        summary := response, actions := extractActions response,
        message_count := messages.length, media_items := fm.2.2.2 }
    | Except.error e =>
      { chat_name := cfg.display_name, priority := cfg.priority,
        summary := "Ошибка при создании summary: " ++ e, actions := [],
        message_count := messages.length, media_items := fm.2.2.2 }

/-- Aggregated result of one `/summary` run (`generated_at` is the `now`
string passed to the aggregate renderer). -/
structure FullSummary where
  chats : List ChatSummary
  aggregate : String
deriving Repr, DecidableEq

/-- summarizer.py lines 107-124, `Summarizer.generate_full`: one
`summarize_chat` per entry in iteration order (each with its own batch
and completion outcome), then the aggregation step. -/
def generateFull (now : String)
    (inputs : List (ChatConfig × List Msg × Except String String)) : FullSummary :=
  let summaries :=
    inputs.foldl (fun acc p => acc ++ [summarizeChat p.1 p.2.1 p.2.2]) []
  { chats := summaries, aggregate := buildAggregate now summaries }

theorem foldl_append_eq_map {α β : Type} (f : α → β) (l : List α) :
    ∀ acc : List β, l.foldl (fun acc x => acc ++ [f x]) acc = acc ++ l.map f := by
  induction l with
  | nil => intro acc; simp
  | cons x rest ih => intro acc; rw [List.foldl_cons, ih]; simp

/-! ### Claims C6 and C7 -/

/-- C7: on an empty batch, `summarize_chat` returns the fixed "no new
messages" summary — `message_count = 0`, no actions, no media — and the
result does not depend on the completion collaborator's outcome (the
universally quantified `g`), i.e. no completion call is consulted. -/
theorem summarizeChat_empty_no_call (cfg : ChatConfig) (g : Except String String) :
    summarizeChat cfg [] g =
      { chat_name := cfg.display_name, priority := cfg.priority,
        summary := "Нет новых сообщений", actions := [], message_count := 0,
        media_items := [] } := rfl

/-- C6: on a non-empty batch whose completion call fails with any
exception text `e`, `summarize_chat` returns a summary communicating the
failure, with empty actions, the true batch size as `message_count`, and
the media items extracted from the real batch; and every chat of a
`generate_full` run is summarized from its own entry alone, so one chat's
failure cannot affect the others. -/
theorem summarizeChat_failure_isolated (cfg : ChatConfig) (messages : List Msg)
    (e : String) (h : messages ≠ []) :
    summarizeChat cfg messages (Except.error e) =
      { chat_name := cfg.display_name, priority := cfg.priority,
        summary := "Ошибка при создании summary: " ++ e, actions := [],
        message_count := messages.length,
        media_items := (formatMessages messages).2.2.2 }
    ∧ ∀ (now : String) (inputs : List (ChatConfig × List Msg × Except String String)),
        (generateFull now inputs).chats
          = inputs.map (fun p => summarizeChat p.1 p.2.1 p.2.2) := by
  constructor
  · unfold summarizeChat
    simp [h]
  · intro now inputs
    unfold generateFull
    rw [foldl_append_eq_map (fun p => summarizeChat p.1 p.2.1 p.2.2) inputs []]
    simp

/-- A configured chat used by concrete witnesses. -/
def wCfg : ChatConfig :=
  { display_name := "News", goal := "keep up", priority := "high",
    identifier := some "@news", chat_id := none, max_messages := 30 }

/-- C6 witness: the failure-isolation statement at a concrete input
(chat "News", one-message batch, a rate-limit failure). -/
theorem summarizeChat_failure_isolated_witness :
    summarizeChat wCfg [exMsg] (Except.error "rate limit") =
      { chat_name := wCfg.display_name, priority := wCfg.priority,
        summary := "Ошибка при создании summary: " ++ "rate limit", actions := [],
        message_count := [exMsg].length,
        media_items := (formatMessages [exMsg]).2.2.2 }
    ∧ (generateFull "t" [(wCfg, [exMsg], Except.error "rate limit")]).chats
        = [(wCfg, [exMsg], Except.error "rate limit")].map
            (fun p => summarizeChat p.1 p.2.1 p.2.2) :=
  ⟨(summarizeChat_failure_isolated wCfg [exMsg] "rate limit" (by decide)).1,
    (summarizeChat_failure_isolated wCfg [exMsg] "rate limit" (by decide)).2
      "t" [(wCfg, [exMsg], Except.error "rate limit")]⟩

/-! ### Claim C9: `_load_state` (collector.py lines 30-37) -/

/-- The default state mapping of `_load_state`
(the `last_ids` object of `{"last_ids": {}}`). -/
def emptyLastIds : LastIds := []

/-- collector.py `_load_state`: `none` models an absent state file,
`some none` a file whose read or JSON parse raises (the `except Exception`
arm), `some (some st)` a successfully parsed mapping. The two failure
shapes both fall through to the default; nothing propagates. -/
def loadState (fileContents : Option (Option LastIds)) : LastIds :=
  match fileContents with
  | some (some st) => st
  | some none => emptyLastIds
  | none => emptyLastIds

/-- C9: with the state file absent or unparseable, the collector starts
from the empty checkpoint mapping without raising, so every chat key's
checkpoint reads as 0 (the `get(chat_key, 0)` default in `get_unread`);
corruption silently resets all incremental state. -/
theorem loadState_missing_or_corrupt :
    loadState none = emptyLastIds
    ∧ loadState (some none) = emptyLastIds
    ∧ (∀ key : String, lastIdOf (loadState none) key = 0)
    ∧ (∀ key : String, lastIdOf (loadState (some none)) key = 0) :=
  ⟨rfl, rfl, fun _ => rfl, fun _ => rfl⟩

/-! ### Claim C10: outbound payloads (bot.py lines 224-285) -/

/-- The JSON payload `_send` posts to `sendMessage`. -/
structure SendPayload where
  chat_id : String
  text : String
  disable_web_page_preview : Bool
  parse_mode : Option String
deriving Repr, DecidableEq

/-- bot.py lines 233-239: payload with `"text": text[:4096]`. -/
def sendPayload (chatId text : String) (parseMode : Option String)
    (disablePreview : Bool) : SendPayload :=
  { chat_id := chatId, text := pySlice text 4096,
    disable_web_page_preview := disablePreview, parse_mode := parseMode }

/-- The JSON payload `_edit` posts to `editMessageText`. -/
structure EditPayload where
  chat_id : String
  message_id : Int
  text : String
  disable_web_page_preview : Bool
  parse_mode : Option String
deriving Repr, DecidableEq

/-- The outbound Bot API call an `_edit` invocation results in. -/
inductive OutboundCall where
  | sendMessage : SendPayload → OutboundCall
  | editMessageText : EditPayload → OutboundCall
deriving Repr, DecidableEq

/-- The text transmitted by an outbound call. -/
def OutboundCall.sentText : OutboundCall → String
  | sendMessage p => p.text
  | editMessageText p => p.text

/-- bot.py lines 255-285, `_edit`: a falsy `message_id` (absent or 0)
falls back to `_send`; otherwise the edit payload carries
`"text": text[:4096]`. -/
def editAction (chatId : String) (messageId : Option Int) (text : String)
    (parseMode : Option String) (disablePreview : Bool) : OutboundCall :=
  match messageId with
  | none => OutboundCall.sendMessage (sendPayload chatId text parseMode disablePreview)
  | some mid =>
    if mid = 0 then
      OutboundCall.sendMessage (sendPayload chatId text parseMode disablePreview)
    else
      OutboundCall.editMessageText
        { chat_id := chatId, message_id := mid, text := pySlice text 4096,
          disable_web_page_preview := disablePreview, parse_mode := parseMode }

/-- C10: every message the dispatcher sends or edits carries exactly the
first 4096 characters of the requested text — for the initial send and
for every in-place edit (including the edit-falls-back-to-send path) —
so the transmitted text never exceeds 4096 characters and the rest of the
text is silently dropped (the transmitted part plus the dropped part
reassemble the original). -/
theorem outbound_text_truncated (chatId text : String) (parseMode : Option String)
    (disablePreview : Bool) (messageId : Option Int) :
    (sendPayload chatId text parseMode disablePreview).text = pySlice text 4096
    ∧ (editAction chatId messageId text parseMode disablePreview).sentText
        = pySlice text 4096
    ∧ (pySlice text 4096).length ≤ 4096
    ∧ String.mk ((pySlice text 4096).data ++ text.data.drop 4096) = text := by
  refine ⟨rfl, ?_, ?_, ?_⟩
  · cases messageId with
    | none => rfl
    | some mid =>
      by_cases h : mid = 0 <;> simp [editAction, h, OutboundCall.sentText, sendPayload]
  · show (text.data.take 4096).length ≤ 4096
    exact List.length_take_le 4096 text.data
  · show String.mk (text.data.take 4096 ++ text.data.drop 4096) = text
    rw [List.take_append_drop]

end TelegramGather
